import Mathlib

/-!
Verification of `scripts/search.py`, a CLI helper that forwards a query to an
external search provider, normalizes each returned record to
`{title, url, snippet}`, prints the list as a JSON array and sets an exit code.

The embedding is shallow. The external provider (`DDGS().text(query,
max_results)`) is an opaque dependency: it is modelled as a function argument
producing either an exception (the call itself raising) or a stream of yields,
each yield either producing a record or raising (the library returns a lazy
iterator, so exceptions can surface while the list comprehension iterates it;
both lie inside the same `try` block).  `sys.exit(1)` after printing an error
object is modelled by the outcome's exit code.
-/

namespace Sorcerer

/-- A minimal JSON value type, enough for the script's output:
strings, arrays and objects (an object is an ordered list of key/value pairs,
as produced by a Python dict literal). -/
inductive Json where
  | str : String → Json
  | arr : List Json → Json
  | obj : List (String × Json) → Json

/-- A record returned by the provider.  The script reads the keys `title`,
`href`, `body` with `r.get(key, "")`; a field is `none` when absent. -/
structure ProviderRecord where
  title : Option String
  href : Option String
  body : Option String
deriving DecidableEq

/-- One yield of the provider's iterator: either a record, or an exception
raised while iterating (the message of the exception). -/
abbrev ProviderYield := Except String ProviderRecord

/-- The observable result of the provider interaction: either the call itself
raises, or it returns a stream of yields. -/
abbrev ProviderCall := Except String (List ProviderYield)

/-- A provider: given the query string and `max_results`, produce the
interaction's observable result. -/
abbrev Provider := String → Nat → ProviderCall

/-- The `max_results` default of `search` (line 10): 6. -/
def defaultMaxResults : Nat := 6

/-- Lines 14–18: one element of the list comprehension,
`{"title": r.get("title", ""), "url": r.get("href", ""),
  "snippet": r.get("body", "")}`. -/
def normalizeRecord (r : ProviderRecord) : Json :=
  .obj [("title", .str (r.title.getD "")),
        ("url", .str (r.href.getD "")),
        ("snippet", .str (r.body.getD ""))]

/-- Iterating the provider's iterator to completion (the comprehension's
`for r in results`): if some yield raises, the iteration raises with that
message and no list is produced. -/
def drain : List ProviderYield → Except String (List ProviderRecord)
  | [] => .ok []
  | .error e :: _ => .error e
  | .ok r :: rest => (drain rest).map (r :: ·)

/-- Lines 11–23, the body of `search`: the `try` block calls the provider and
maps every yielded record through `normalizeRecord`; any exception — from the
call or from iterating — is caught, `{"error": str(e)}` is printed and the
process exits with code 1.  `.ok recs` is the normal return of the list;
`.error e` is the print-and-exit path. -/
def search (call : ProviderCall) : Except String (List Json) := do
  let stream ← call
  let recs ← drain stream
  pure (recs.map normalizeRecord)

/-- `{"error": msg}`, the payload printed on every failure. -/
def errorJson (msg : String) : Json := .obj [("error", .str msg)]

/-- The observable outcome of one invocation: the sequence of JSON values
printed to stdout, the exit code, and the query string handed to the provider
(`none` when the provider was never invoked). -/
structure Outcome where
  stdout : List Json
  exitCode : Nat
  providerQuery : Option String

/-- Lines 26–33, the `__main__` block.  `args` is `sys.argv[1:]` (the
arguments after the program name); `len(sys.argv) < 2` is `args = []`.
Otherwise the arguments are joined with single spaces, `search(query)` runs
with the default `max_results`, and on success the array is printed with
exit code 0. -/
def mainRun (args : List String) (provider : Provider) : Outcome :=
  if args.isEmpty then
    { stdout := [errorJson "No query provided"], exitCode := 1,
      providerQuery := none }
  else
    let query := " ".intercalate args
    match search (provider query defaultMaxResults) with
    | .error e =>
        { stdout := [errorJson e], exitCode := 1, providerQuery := some query }
    | .ok results =>
        { stdout := [.arr results], exitCode := 0, providerQuery := some query }

/-- The keys of a JSON object, in order; non-objects have no keys. -/
def objKeys : Json → List String
  | .obj kvs => kvs.map Prod.fst
  | _ => []

/-- All values of a JSON object are strings. -/
def objAllStrings : Json → Prop
  | .obj kvs => ∀ kv ∈ kvs, ∃ s, kv.2 = Json.str s
  | _ => False

/-- A stream in which no yield raises, written as a map for convenience. -/
def pureStream (recs : List ProviderRecord) : List ProviderYield :=
  recs.map .ok

theorem drain_pureStream (recs : List ProviderRecord) :
    drain (pureStream recs) = .ok recs := by
  induction recs with
  | nil => rfl
  | cons r rest ih =>
      show drain (.ok r :: pureStream rest) = .ok (r :: rest)
      simp only [drain, ih]
      rfl

theorem drain_error_after (recs : List ProviderRecord) (e : String)
    (rest : List ProviderYield) :
    drain (pureStream recs ++ .error e :: rest) = .error e := by
  induction recs with
  | nil => rfl
  | cons r tl ih =>
      show drain (.ok r :: (pureStream tl ++ .error e :: rest)) = .error e
      simp only [drain, ih]
      rfl

theorem search_pureStream (recs : List ProviderRecord) :
    search (.ok (pureStream recs)) = .ok (recs.map normalizeRecord) := by
  show Except.bind (drain (pureStream recs))
      (fun recs => Except.pure (recs.map normalizeRecord)) = _
  rw [drain_pureStream]
  rfl

theorem mainRun_of_search_ok (args : List String) (provider : Provider)
    (results : List Json) (h : args ≠ [])
    (hs : search (provider (" ".intercalate args) defaultMaxResults) = .ok results) :
    mainRun args provider =
      { stdout := [.arr results], exitCode := 0,
        providerQuery := some (" ".intercalate args) } := by
  rw [mainRun, if_neg (by simpa using h)]
  simp only [hs]

theorem mainRun_of_search_error (args : List String) (provider : Provider)
    (e : String) (h : args ≠ [])
    (hs : search (provider (" ".intercalate args) defaultMaxResults) = .error e) :
    mainRun args provider =
      { stdout := [errorJson e], exitCode := 1,
        providerQuery := some (" ".intercalate args) } := by
  rw [mainRun, if_neg (by simpa using h)]
  simp only [hs]

theorem mainRun_providerQuery_of_ne_nil (args : List String) (provider : Provider)
    (h : args ≠ []) :
    (mainRun args provider).providerQuery = some (" ".intercalate args) := by
  cases hs : search (provider (" ".intercalate args) defaultMaxResults) with
  | error e => rw [mainRun_of_search_error args provider e h hs]
  | ok results => rw [mainRun_of_search_ok args provider results h hs]

/-- A provider record with every field absent. -/
def blankRecord : ProviderRecord := { title := none, href := none, body := none }

/-- A provider whose interaction returns seven records without raising. -/
def sevenRecordProvider : Provider :=
  fun _ _ => .ok (pureStream (List.replicate 7 blankRecord))

/-- The provider of the spec's `cats` scenario: one record
`{"title": "A", "href": "http://a", "body": "b1"}`. -/
def catsProvider : Provider :=
  fun _ _ => .ok [.ok { title := some "A", href := some "http://a", body := some "b1" }]

/-- C1 (counterexample): a successful provider response of 7 records (N > 6)
yields a printed array of length 7, not 6 — the code never truncates the
response it receives. -/
theorem seven_records_not_truncated :
    (mainRun ["q"] sevenRecordProvider).exitCode = 0 ∧
    (mainRun ["q"] sevenRecordProvider).stdout =
      [Json.arr (List.replicate 7 (normalizeRecord blankRecord))] ∧
    (List.replicate 7 (normalizeRecord blankRecord)).length = 7 ∧ (7 : Nat) ≠ 6 :=
  ⟨rfl, rfl, rfl, by decide⟩

/-- C1 (amended): for every successful provider response of N records the
printed JSON array has length exactly N, for every N; the limit 6 is not
enforced by truncating the response but only requested from the provider, by
passing `max_results = 6` (`defaultMaxResults`) to the call. -/
theorem output_length_eq_response_length (args : List String) (provider : Provider)
    (recs : List ProviderRecord) (h : args ≠ [])
    (hp : provider (" ".intercalate args) defaultMaxResults = .ok (pureStream recs)) :
    (mainRun args provider).stdout = [Json.arr (recs.map normalizeRecord)] ∧
    (recs.map normalizeRecord).length = recs.length ∧
    defaultMaxResults = 6 := by
  refine ⟨?_, by simp, rfl⟩
  rw [mainRun_of_search_ok args provider _ h (by rw [hp]; exact search_pureStream recs)]

/-- C1 (witness): the amended theorem applied to a 7-record response. -/
theorem output_length_eq_response_length_witness :
    (mainRun ["q"] sevenRecordProvider).stdout =
      [Json.arr ((List.replicate 7 blankRecord).map normalizeRecord)] ∧
    ((List.replicate 7 blankRecord).map normalizeRecord).length =
      (List.replicate 7 blankRecord).length ∧
    defaultMaxResults = 6 :=
  output_length_eq_response_length ["q"] sevenRecordProvider
    (List.replicate 7 blankRecord) (by simp) rfl

/-- C2: when the provider call raises with message `e`, the program prints
exactly the single JSON object `{"error": e}` (no partial result array) and
exits with code 1. -/
theorem provider_error_reported (args : List String) (provider : Provider)
    (e : String) (h : args ≠ [])
    (hp : provider (" ".intercalate args) defaultMaxResults = .error e) :
    mainRun args provider =
      { stdout := [errorJson e], exitCode := 1,
        providerQuery := some (" ".intercalate args) } :=
  mainRun_of_search_error args provider e h (by rw [hp]; rfl)

/-- C2 (witness): a provider that raises with message "net down". -/
theorem provider_error_reported_witness :
    mainRun ["boom"] (fun _ _ => Except.error "net down") =
      { stdout := [errorJson "net down"], exitCode := 1,
        providerQuery := some "boom" } :=
  provider_error_reported ["boom"] (fun _ _ => Except.error "net down")
    "net down" (by simp) rfl

/-- C3: with an empty argument list the program prints
`{"error": "No query provided"}`, exits with code 1, and never invokes the
provider: the outcome is the same constant for every provider and records no
provider query. -/
theorem empty_args_no_query_provided (provider : Provider) :
    mainRun [] provider =
      { stdout := [errorJson "No query provided"], exitCode := 1,
        providerQuery := none } := rfl

/-- C4: on success the printed value is a single JSON array each of whose
elements is an object with exactly the keys `title`, `url`, `snippet`, every
value a string, and the element for provider record `r` carries
`r.title`/`r.href`/`r.body` with the empty string substituted for an absent
field. -/
theorem output_record_fields (args : List String) (provider : Provider)
    (recs : List ProviderRecord) (h : args ≠ [])
    (hp : provider (" ".intercalate args) defaultMaxResults = .ok (pureStream recs)) :
    ∃ l, (mainRun args provider).stdout = [Json.arr l] ∧
      (∀ j ∈ l, objKeys j = ["title", "url", "snippet"] ∧ objAllStrings j) ∧
      ∀ i : Nat, ∀ r, recs[i]? = some r →
        l[i]? = some (Json.obj
          [("title", Json.str (r.title.getD "")),
           ("url", Json.str (r.href.getD "")),
           ("snippet", Json.str (r.body.getD ""))]) := by
  refine ⟨recs.map normalizeRecord, ?_, ?_, ?_⟩
  · rw [mainRun_of_search_ok args provider _ h (by rw [hp]; exact search_pureStream recs)]
  · intro j hj
    obtain ⟨r, _, rfl⟩ := List.mem_map.1 hj
    exact ⟨rfl, by simp [normalizeRecord, objAllStrings]⟩
  · intro i r hr
    rw [List.getElem?_map, hr]
    rfl

/-- C4 (witness): a record with absent `title` and `body` fields maps to empty
strings. -/
theorem output_record_fields_witness :
    ∃ l, (mainRun ["q"] (fun _ _ =>
        Except.ok (pureStream [{ title := none, href := some "http://u", body := none }]))).stdout
        = [Json.arr l] ∧
      (∀ j ∈ l, objKeys j = ["title", "url", "snippet"] ∧ objAllStrings j) ∧
      ∀ i : Nat, ∀ r,
        ([{ title := none, href := some "http://u", body := none }] :
          List ProviderRecord)[i]? = some r →
        l[i]? = some (Json.obj
          [("title", Json.str (r.title.getD "")),
           ("url", Json.str (r.href.getD "")),
           ("snippet", Json.str (r.body.getD ""))]) :=
  output_record_fields ["q"] _ [{ title := none, href := some "http://u", body := none }]
    (by simp) rfl

/-- C5: with a non-empty argument list, the query handed to the provider is the
arguments joined with single spaces. -/
theorem query_is_args_joined (args : List String) (provider : Provider)
    (h : args ≠ []) :
    (mainRun args provider).providerQuery = some (" ".intercalate args) :=
  mainRun_providerQuery_of_ne_nil args provider h

/-- C5 (witness): arguments `["hello", "world"]` yield the query
`"hello world"`. -/
theorem query_is_args_joined_witness :
    (mainRun ["hello", "world"] (fun _ _ => Except.ok [])).providerQuery =
      some "hello world" :=
  query_is_args_joined ["hello", "world"] (fun _ _ => Except.ok []) (by simp)

/-- C6: the output `title` comes from the provider's `title`, `url` from
`href`, `snippet` from `body`; and the spec's scenario: input `["cats"]` with
provider response `[{"title": "A", "href": "http://a", "body": "b1"}]` prints
`[{"title": "A", "url": "http://a", "snippet": "b1"}]` and exits 0. -/
theorem field_mapping_and_cats_scenario (t u b : String) :
    normalizeRecord { title := some t, href := some u, body := some b } =
      Json.obj [("title", Json.str t), ("url", Json.str u), ("snippet", Json.str b)] ∧
    mainRun ["cats"] catsProvider =
      { stdout := [Json.arr [Json.obj
          [("title", Json.str "A"), ("url", Json.str "http://a"),
           ("snippet", Json.str "b1")]]],
        exitCode := 0, providerQuery := some "cats" } :=
  ⟨rfl, rfl⟩

/-- C7: on success the printed array preserves the provider's order: its i-th
element is the normalization of the i-th provider record. -/
theorem output_preserves_order (args : List String) (provider : Provider)
    (recs : List ProviderRecord) (i : Nat) (h : args ≠ [])
    (hp : provider (" ".intercalate args) defaultMaxResults = .ok (pureStream recs)) :
    ∃ l, (mainRun args provider).stdout = [Json.arr l] ∧
      l[i]? = recs[i]?.map normalizeRecord := by
  refine ⟨recs.map normalizeRecord, ?_, List.getElem?_map normalizeRecord recs i⟩
  rw [mainRun_of_search_ok args provider _ h (by rw [hp]; exact search_pureStream recs)]

/-- C7 (witness): the second element of a two-record response. -/
theorem output_preserves_order_witness :
    ∃ l, (mainRun ["q"] (fun _ _ =>
        Except.ok (pureStream [blankRecord,
          { title := some "B", href := some "hb", body := some "bb" }]))).stdout
        = [Json.arr l] ∧
      l[1]? = ([blankRecord,
          { title := some "B", href := some "hb", body := some "bb" }] :
        List ProviderRecord)[1]?.map normalizeRecord :=
  output_preserves_order ["q"] _
    [blankRecord, { title := some "B", href := some "hb", body := some "bb" }]
    1 (by simp) rfl

/-- C8: with a non-empty argument list and a provider interaction that returns
records without raising, the program prints the JSON array of normalized
records and exits with code 0. -/
theorem success_prints_array_exit_zero (args : List String) (provider : Provider)
    (recs : List ProviderRecord) (h : args ≠ [])
    (hp : provider (" ".intercalate args) defaultMaxResults = .ok (pureStream recs)) :
    mainRun args provider =
      { stdout := [Json.arr (recs.map normalizeRecord)], exitCode := 0,
        providerQuery := some (" ".intercalate args) } :=
  mainRun_of_search_ok args provider _ h (by rw [hp]; exact search_pureStream recs)

/-- C8 (witness): a one-record success. -/
theorem success_prints_array_exit_zero_witness :
    mainRun ["cats", "dogs"] catsProvider =
      { stdout := [Json.arr
          [Json.obj [("title", Json.str "A"), ("url", Json.str "http://a"),
            ("snippet", Json.str "b1")]]],
        exitCode := 0, providerQuery := some "cats dogs" } :=
  success_prints_array_exit_zero ["cats", "dogs"] catsProvider
    [{ title := some "A", href := some "http://a", body := some "b1" }]
    (by simp) rfl

/-- C9: an exception raised while iterating the provider's records — after any
number of successful yields — is caught by the same `try` block: the program
prints only `{"error": e}` (no partial array) and exits with code 1. -/
theorem iteration_error_reported (args : List String) (provider : Provider)
    (recs : List ProviderRecord) (e : String) (rest : List ProviderYield)
    (h : args ≠ [])
    (hp : provider (" ".intercalate args) defaultMaxResults =
      .ok (pureStream recs ++ .error e :: rest)) :
    mainRun args provider =
      { stdout := [errorJson e], exitCode := 1,
        providerQuery := some (" ".intercalate args) } :=
  mainRun_of_search_error args provider e h (by
    rw [hp]
    show Except.bind (drain (pureStream recs ++ .error e :: rest)) _ = _
    rw [drain_error_after]
    rfl)

/-- C9 (witness): the iterator yields one good record and then raises. -/
theorem iteration_error_reported_witness :
    mainRun ["q"] (fun _ _ =>
        Except.ok (pureStream [blankRecord] ++ Except.error "iteration failed" :: [])) =
      { stdout := [errorJson "iteration failed"], exitCode := 1,
        providerQuery := some "q" } :=
  iteration_error_reported ["q"] _ [blankRecord] "iteration failed" []
    (by simp) rfl

/-- C10: the "No query provided" outcome occurs exactly when the argument list
is empty; an argument list consisting of one empty string passes the check and
the provider is invoked with the empty query string. -/
theorem no_query_error_iff_empty_args (args : List String) (provider : Provider) :
    (mainRun args provider =
        { stdout := [errorJson "No query provided"], exitCode := 1,
          providerQuery := none } ↔ args = []) ∧
    (mainRun [""] provider).providerQuery = some "" := by
  constructor
  · constructor
    · intro hm
      by_contra hne
      have hq := mainRun_providerQuery_of_ne_nil args provider hne
      rw [congrArg Outcome.providerQuery hm] at hq
      exact Option.noConfusion hq
    · intro h
      subst h
      rfl
  · exact mainRun_providerQuery_of_ne_nil [""] provider (by simp)

end Sorcerer
